import Mathlib

/-!
Shallow embedding of the `gotrt` ray tracer (`src/main.go`) over the real
numbers.  Go `float32`/`float64` values are modelled as `ℝ`; Go `int` as `ℤ`.
The Go conversion `int(x)` on a floating value truncates toward zero, which is
modelled by `truncInt`.  `math.MaxFloat32` is the exact real value
`2^128 - 2^104`.
-/

noncomputable section

namespace Gotrt

/-- Vec3f models the Go type `Vec3f [3]float32` with three real components. -/
structure Vec3f where
  x : ℝ
  y : ℝ
  z : ℝ

/-- sub models Go `sub`: componentwise difference. -/
def sub (lhs rhs : Vec3f) : Vec3f :=
  ⟨lhs.x - rhs.x, lhs.y - rhs.y, lhs.z - rhs.z⟩

/-- add models Go `add`: componentwise sum. -/
def add (lhs rhs : Vec3f) : Vec3f :=
  ⟨lhs.x + rhs.x, lhs.y + rhs.y, lhs.z + rhs.z⟩

/-- accumulate models Go variadic `accumulate`: sum of a list of vectors
starting from the zero vector. -/
def accumulate (vectors : List Vec3f) : Vec3f :=
  vectors.foldl add ⟨0, 0, 0⟩

/-- scale models Go `scale`: componentwise multiplication by a scalar. -/
def scale (v : Vec3f) (f : ℝ) : Vec3f :=
  ⟨v.x * f, v.y * f, v.z * f⟩

/-- dot models Go `dot`: the Euclidean inner product. -/
def dot (lhs rhs : Vec3f) : ℝ :=
  lhs.x * rhs.x + lhs.y * rhs.y + lhs.z * rhs.z

/-- Vec3f.length models the Go method `length`: `sqrt(dot(v,v))`. -/
def Vec3f.length (v : Vec3f) : ℝ :=
  Real.sqrt (dot v v)

/-- clamp11 models Go `clamp11`: clamp a scalar into `[-1, 1]`. -/
def clamp11 (v : ℝ) : ℝ :=
  if v < -1 then -1 else if v > 1 then 1 else v

/-- normalize models Go `normalize`: divide each component by the length. -/
def normalize (v : Vec3f) : Vec3f :=
  ⟨v.x / v.length, v.y / v.length, v.z / v.length⟩

/-- negate models Go `negate`: componentwise negation. -/
def negate (v : Vec3f) : Vec3f :=
  ⟨-v.x, -v.y, -v.z⟩

/-- reflect models Go `reflect`: `I - 2*dot(I,N)*N`. -/
def reflect (I normal : Vec3f) : Vec3f :=
  sub I (scale normal (2 * dot I normal))

/-- Material models the Go struct `Material`; the four albedo array entries
become four named fields in order. -/
structure Material where
  refractiveIndex : ℝ
  diffuseColor : Vec3f
  albedo0 : ℝ
  albedo1 : ℝ
  albedo2 : ℝ
  albedo3 : ℝ
  specularExponent : ℝ

/-- Sphere models the Go struct `Sphere`. -/
structure Sphere where
  center : Vec3f
  radius : ℝ
  material : Material

/-- Light models the Go struct `Light`. -/
structure Light where
  position : Vec3f
  intensity : ℝ

/-- maxFloat32 is the exact real value of Go `math.MaxFloat32`. -/
def maxFloat32 : ℝ := 2 ^ 128 - 2 ^ 104

/-- rayL is the local `L = center - origin` of `Sphere.rayIntersects`. -/
def rayL (s : Sphere) (origin : Vec3f) : Vec3f :=
  sub s.center origin

/-- rayTca is the local `tca = dot(L, direction)` of `Sphere.rayIntersects`. -/
def rayTca (s : Sphere) (origin direction : Vec3f) : ℝ :=
  dot (rayL s origin) direction

/-- rayD2 is the local `d2 = dot(L,L) - tca*tca` of `Sphere.rayIntersects`. -/
def rayD2 (s : Sphere) (origin direction : Vec3f) : ℝ :=
  dot (rayL s origin) (rayL s origin) - rayTca s origin direction * rayTca s origin direction

/-- rayThc is the local `thc = sqrt(r2 - d2)` of `Sphere.rayIntersects`. -/
def rayThc (s : Sphere) (origin direction : Vec3f) : ℝ :=
  Real.sqrt (s.radius * s.radius - rayD2 s origin direction)

/-- rayT0 is the first candidate root `t0 = tca - thc`. -/
def rayT0 (s : Sphere) (origin direction : Vec3f) : ℝ :=
  rayTca s origin direction - rayThc s origin direction

/-- rayT1 is the second candidate root `t1 = tca + thc`. -/
def rayT1 (s : Sphere) (origin direction : Vec3f) : ℝ :=
  rayTca s origin direction + rayThc s origin direction

/-- rayIntersects models the Go method `Sphere.rayIntersects`: geometric
ray-sphere test returning a hit flag and a distance.  The Go control flow
`if t0 < 0 { t0 = t1 }; if t0 < 0 { return false, t0 }; return true, t0`
is expanded branchwise. -/
def rayIntersects (s : Sphere) (origin direction : Vec3f) : Bool × ℝ :=
  if rayD2 s origin direction > s.radius * s.radius then
    (false, maxFloat32)
  else if rayT0 s origin direction < 0 then
    if rayT1 s origin direction < 0 then
      (false, rayT1 s origin direction)
    else
      (true, rayT1 s origin direction)
  else
    (true, rayT0 s origin direction)

/-- refractCosi0 is the local `cosi = -clamp11(dot(I, normal))` of `refract`
before the inside-the-object swap. -/
def refractCosi0 (I normal : Vec3f) : ℝ :=
  -(clamp11 (dot I normal))

/-- refractCosi is `cosi` after the swap branch (`cosi = -cosi` when negative). -/
def refractCosi (I normal : Vec3f) : ℝ :=
  if refractCosi0 I normal < 0 then -(refractCosi0 I normal) else refractCosi0 I normal

/-- refractEta is `eta = etai/etat` after the swap branch: the indices start as
`etai = 1`, `etat = refractiveIndex` and are swapped when `cosi < 0`. -/
def refractEta (I normal : Vec3f) (refractiveIndex : ℝ) : ℝ :=
  if refractCosi0 I normal < 0 then refractiveIndex / 1 else 1 / refractiveIndex

/-- refractNormal is `n` after the swap branch (`n = -normal` when `cosi < 0`). -/
def refractNormal (I normal : Vec3f) : Vec3f :=
  if refractCosi0 I normal < 0 then negate normal else normal

/-- refractK is the local `k = 1 - eta*eta*(1 - cosi*cosi)` of `refract`,
computed after the swap branch. -/
def refractK (I normal : Vec3f) (refractiveIndex : ℝ) : ℝ :=
  1 - refractEta I normal refractiveIndex * refractEta I normal refractiveIndex *
    (1 - refractCosi I normal * refractCosi I normal)

/-- refract models Go `refract` (Snell's law), including the fixed sentinel
`(1,0,0)` on total internal reflection (`k < 0`). -/
def refract (I normal : Vec3f) (refractiveIndex : ℝ) : Vec3f :=
  if refractK I normal refractiveIndex < 0 then ⟨1, 0, 0⟩
  else
    add (scale I (refractEta I normal refractiveIndex))
      (scale (refractNormal I normal)
        (refractEta I normal refractiveIndex * refractCosi I normal -
          Real.sqrt (refractK I normal refractiveIndex)))

/-- truncInt models Go conversion `int(x)` from a floating value: truncation
toward zero (floor for nonnegative arguments, ceiling for negative ones). -/
def truncInt (x : ℝ) : ℤ :=
  if 0 ≤ x then ⌊x⌋ else ⌈x⌉

/-- planeD is the plane-intersection distance `d = -(origin.y + 4)/direction.y`
of the checkerboard branch of `sceneIntersect`. -/
def planeD (origin direction : Vec3f) : ℝ :=
  -(origin.y + 4) / direction.y

/-- planePoint is the candidate plane hit `origin + d*direction`. -/
def planePoint (origin direction : Vec3f) : Vec3f :=
  add origin (scale direction (planeD origin direction))

/-- checkIndicator is the Go local `colorIndicator = int(0.5*hit.X()+1000) +
int(0.5*hit.Z())` with Go integer truncation. -/
def checkIndicator (hit : Vec3f) : ℤ :=
  truncInt (0.5 * hit.x + 1000) + truncInt (0.5 * hit.z)

/-- planeBase is the checkerboard diffuse color before the 0.3 scaling: orange
when `colorIndicator` is odd (Go `(colorIndicator & 1) == 1`), white otherwise. -/
def planeBase (hit : Vec3f) : Vec3f :=
  if checkIndicator hit % 2 = 1 then ⟨1, 0.7, 0.3⟩ else ⟨1, 1, 1⟩

/-- planeMaterial is the material installed by the checkerboard branch:
`Material{1, base, {1,0,0,0}, 0}` with the diffuse color scaled by 0.3. -/
def planeMaterial (hit : Vec3f) : Material :=
  { refractiveIndex := 1, diffuseColor := scale (planeBase hit) 0.3,
    albedo0 := 1, albedo1 := 0, albedo2 := 0, albedo3 := 0, specularExponent := 0 }

/-- planeAccepts collects the conditions under which the checkerboard branch of
`sceneIntersect` replaces the current best hit: the outer guard
`|direction.y| > 0.001` and the inner `d > 0 && |point.x| < 10 &&
point.z < -10 && point.z > -30 && d < closestDistance`. -/
def planeAccepts (origin direction : Vec3f) (bound : ℝ) : Prop :=
  |direction.y| > 0.001 ∧ planeD origin direction > 0 ∧
    |(planePoint origin direction).x| < 10 ∧ (planePoint origin direction).z < -10 ∧
    (planePoint origin direction).z > -30 ∧ planeD origin direction < bound

instance planeAcceptsDecidable (origin direction : Vec3f) (bound : ℝ) :
    Decidable (planeAccepts origin direction bound) := by
  unfold planeAccepts; infer_instance

/-- IState is the loop state of `sceneIntersect`: the named results together
with the running `closestDistance`. -/
structure IState where
  closestDistance : ℝ
  hit : Vec3f
  N : Vec3f
  material : Material

/-- initIState holds `closestDistance = math.MaxFloat32` and the Go zero values
of the named results. -/
def initIState : IState :=
  ⟨maxFloat32, ⟨0, 0, 0⟩, ⟨0, 0, 0⟩, ⟨0, ⟨0, 0, 0⟩, 0, 0, 0, 0, 0⟩⟩

/-- sphereStep is one iteration of the sphere loop of `sceneIntersect`. -/
def sphereStep (origin direction : Vec3f) (st : IState) (s : Sphere) : IState :=
  if (rayIntersects s origin direction).1 = true ∧
      (rayIntersects s origin direction).2 < st.closestDistance then
    { closestDistance := (rayIntersects s origin direction).2,
      hit := add origin (scale direction (rayIntersects s origin direction).2),
      N := normalize (sub (add origin (scale direction (rayIntersects s origin direction).2)) s.center),
      material := s.material }
  else st

/-- spheresFold is the whole sphere loop of `sceneIntersect`. -/
def spheresFold (origin direction : Vec3f) (spheres : List Sphere) : IState :=
  spheres.foldl (sphereStep origin direction) initIState

/-- planeStep is the checkerboard-plane branch of `sceneIntersect`, applied
after the sphere loop. -/
def planeStep (origin direction : Vec3f) (st : IState) : IState :=
  if planeAccepts origin direction st.closestDistance then
    { closestDistance := planeD origin direction, hit := planePoint origin direction,
      N := ⟨0, 1, 0⟩, material := planeMaterial (planePoint origin direction) }
  else st

/-- HitInfo is the result tuple of `sceneIntersect`. -/
structure HitInfo where
  intersects : Bool
  hit : Vec3f
  N : Vec3f
  material : Material

/-- sceneIntersect models Go `sceneIntersect`: the sphere loop, then the
checkerboard plane, with `intersects = closestDistance < 1000`. -/
def sceneIntersect (origin direction : Vec3f) (spheres : List Sphere) : HitInfo :=
  let st := planeStep origin direction (spheresFold origin direction spheres)
  ⟨decide (st.closestDistance < 1000), st.hit, st.N, st.material⟩

/-- bgColor is the fixed background color of `castRay`. -/
def bgColor : Vec3f := ⟨0.2, 0.7, 0.8⟩

/-- whiteColor is the local `white` of `castRay`. -/
def whiteColor : Vec3f := ⟨1, 1, 1⟩

/-- biasedOrigin applies the self-intersection bias of `castRay`: offset
`point` by `0.001*normal`, negated when the ray direction points into the
surface (`dot(rayDir, normal) < 0`). -/
def biasedOrigin (point normal rayDir : Vec3f) : Vec3f :=
  add point (if dot rayDir normal < 0 then negate (scale normal 0.001) else scale normal 0.001)

/-- lightDir is the local `lightDirection` of the light loop of `castRay`. -/
def lightDir (point : Vec3f) (light : Light) : Vec3f :=
  normalize (sub light.position point)

/-- lightDist is the local `lightDistance` of the light loop of `castRay`. -/
def lightDist (point : Vec3f) (light : Light) : ℝ :=
  (sub light.position point).length

/-- shadowOriginOf is the local `shadowOrigin` of the light loop of `castRay`:
the hit point bias-corrected toward the light. -/
def shadowOriginOf (point normal : Vec3f) (light : Light) : Vec3f :=
  biasedOrigin point normal (lightDir point light)

/-- occluded is the shadow test of the light loop of `castRay`: the probe from
the bias-corrected shadow origin toward the light hits something, and that hit
is closer than the light. -/
def occluded (spheres : List Sphere) (point normal : Vec3f) (light : Light) : Bool :=
  (sceneIntersect (shadowOriginOf point normal light) (lightDir point light) spheres).intersects &&
    decide
      ((sub (sceneIntersect (shadowOriginOf point normal light) (lightDir point light) spheres).hit
          (shadowOriginOf point normal light)).length <
        lightDist point light)

/-- lightTerm is the contribution of one light in the light loop of `castRay`:
`(0,0)` when the light is occluded (the Go `continue`), otherwise the diffuse
and specular increments. -/
def lightTerm (spheres : List Sphere) (point normal direction : Vec3f)
    (specularExponent : ℝ) (light : Light) : ℝ × ℝ :=
  if occluded spheres point normal light then (0, 0)
  else
    (light.intensity * max 0 (dot (lightDir point light) normal),
      max 0 (-(dot (reflect (negate (lightDir point light)) normal) direction)) ^ specularExponent *
        light.intensity)

/-- lightFold is the whole light loop of `castRay`, accumulating the diffuse
and specular intensities from `(0,0)`. -/
def lightFold (spheres : List Sphere) (point normal direction : Vec3f)
    (specularExponent : ℝ) (lights : List Light) : ℝ × ℝ :=
  lights.foldl
    (fun acc light =>
      (acc.1 + (lightTerm spheres point normal direction specularExponent light).1,
        acc.2 + (lightTerm spheres point normal direction specularExponent light).2))
    (0, 0)

/-- reflectRay is the local `reflectDirection` of `castRay`. -/
def reflectRay (direction : Vec3f) (res : HitInfo) : Vec3f :=
  normalize (reflect direction res.N)

/-- refractRay is the local `refractDirection` of `castRay`. -/
def refractRay (direction : Vec3f) (res : HitInfo) : Vec3f :=
  normalize (refract direction res.N res.material.refractiveIndex)

/-- shadePoint is the non-recursive tail of `castRay`: the light loop followed
by the albedo-weighted sum of the diffuse, specular, reflected and refracted
contributions. -/
def shadePoint (direction : Vec3f) (res : HitInfo) (spheres : List Sphere)
    (lights : List Light) (reflectColor refractColor : Vec3f) : Vec3f :=
  let acc := lightFold spheres res.hit res.N direction res.material.specularExponent lights
  accumulate
    [scale res.material.diffuseColor (acc.1 * res.material.albedo0),
      scale whiteColor (acc.2 * res.material.albedo1),
      scale reflectColor res.material.albedo2,
      scale refractColor res.material.albedo3]

/-- castRay models Go `castRay` with an integer depth: background on depth
exhaustion or a miss, otherwise Phong shading plus recursively traced
reflection and refraction rays at `depth-1`. -/
def castRay (origin direction : Vec3f) (spheres : List Sphere) (lights : List Light)
    (depth : ℤ) : Vec3f :=
  let res := sceneIntersect origin direction spheres
  if h : depth < 1 ∨ res.intersects = false then bgColor
  else
    shadePoint direction res spheres lights
      (castRay (biasedOrigin res.hit res.N (reflectRay direction res)) (reflectRay direction res)
        spheres lights (depth - 1))
      (castRay (biasedOrigin res.hit res.N (refractRay direction res)) (refractRay direction res)
        spheres lights (depth - 1))
termination_by depth.toNat
decreasing_by all_goals (simp only [not_or, not_lt] at h; omega)

/-- castRayFuel is a fuel-metered variant of `castRay`: it returns `none` when
the supplied fuel runs out before the recursion bottoms out, and otherwise the
same color as `castRay`.  It makes the recursion-depth bound of `castRay` a
provable statement. -/
def castRayFuel : ℕ → Vec3f → Vec3f → List Sphere → List Light → ℤ → Option Vec3f
  | 0, _, _, _, _, _ => none
  | fuel + 1, origin, direction, spheres, lights, depth =>
    let res := sceneIntersect origin direction spheres
    if depth < 1 ∨ res.intersects = false then some bgColor
    else
      match
        castRayFuel fuel (biasedOrigin res.hit res.N (reflectRay direction res))
          (reflectRay direction res) spheres lights (depth - 1),
        castRayFuel fuel (biasedOrigin res.hit res.N (refractRay direction res))
          (refractRay direction res) spheres lights (depth - 1) with
      | some reflectColor, some refractColor =>
        some (shadePoint direction res spheres lights reflectColor refractColor)
      | _, _ => none

/-- ivory is the ivory material constructed in `main`. -/
def ivory : Material := ⟨1, ⟨0.4, 0.4, 0.3⟩, 0.6, 0.3, 0.1, 0, 50⟩

/-- redRubber is the red rubber material constructed in `main`. -/
def redRubber : Material := ⟨1, ⟨0.3, 0.1, 0.1⟩, 0.9, 0.1, 0, 0, 10⟩

/-- sqrtEval evaluates a square root once the radicand is written as a square
of a nonnegative number. -/
lemma sqrtEval {x y : ℝ} (h : x = y * y) (hy : 0 ≤ y) : Real.sqrt x = y := by
  rw [h, Real.sqrt_mul_self hy]

/-- rayIntersects_pos: when the discriminant test passes and the first
candidate root is nonnegative, the result is a hit at `t0`. -/
lemma rayIntersects_pos (s : Sphere) (origin direction : Vec3f)
    (h1 : ¬ rayD2 s origin direction > s.radius * s.radius)
    (h2 : ¬ rayT0 s origin direction < 0) :
    rayIntersects s origin direction = (true, rayT0 s origin direction) := by
  unfold rayIntersects
  rw [if_neg h1, if_neg h2]

/-- rayIntersects_behind: when both candidate roots are negative the result is
a miss carrying `t1`. -/
lemma rayIntersects_behind (s : Sphere) (origin direction : Vec3f)
    (h1 : ¬ rayD2 s origin direction > s.radius * s.radius)
    (h2 : rayT0 s origin direction < 0) (h3 : rayT1 s origin direction < 0) :
    rayIntersects s origin direction = (false, rayT1 s origin direction) := by
  unfold rayIntersects
  rw [if_neg h1, if_pos h2, if_pos h3]

/-- C10: whenever `Sphere.rayIntersects` returns `hit = true` the returned
distance is nonnegative, so the hit point `origin + t*direction` never lies
behind the ray origin; and when both candidate roots `t0 = tca - thc` and
`t1 = tca + thc` are negative the result is `hit = false`. -/
theorem rayIntersects_hit_nonneg_and_behind_misses (s : Sphere) (origin direction : Vec3f) :
    ((rayIntersects s origin direction).1 = true → 0 ≤ (rayIntersects s origin direction).2) ∧
    (rayT0 s origin direction < 0 → rayT1 s origin direction < 0 →
      (rayIntersects s origin direction).1 = false) := by
  unfold rayIntersects
  split_ifs with h1 h2 h3
  · exact ⟨fun h => by simp at h, fun _ _ => rfl⟩
  · exact ⟨fun h => by simp at h, fun _ _ => rfl⟩
  · exact ⟨fun _ => not_lt.mp h3, fun _ hc => absurd hc h3⟩
  · exact ⟨fun _ => not_lt.mp h2, fun hc _ => absurd hc h2⟩

/-- Witness for C10: a unit sphere 5 units down the negative z axis is hit at a
nonnegative distance, and the same sphere placed behind the origin reports no
hit. -/
theorem rayIntersects_hit_nonneg_and_behind_misses_witness :
    0 ≤ (rayIntersects ⟨⟨0, 0, -5⟩, 1, ivory⟩ ⟨0, 0, 0⟩ ⟨0, 0, -1⟩).2 ∧
    (rayIntersects ⟨⟨0, 0, 5⟩, 1, ivory⟩ ⟨0, 0, 0⟩ ⟨0, 0, -1⟩).1 = false := by
  have hd2A : rayD2 ⟨⟨0, 0, -5⟩, 1, ivory⟩ ⟨0, 0, 0⟩ ⟨0, 0, -1⟩ = 0 := by
    unfold rayD2 rayTca rayL; simp [dot, sub]
  have hthcA : rayThc ⟨⟨0, 0, -5⟩, 1, ivory⟩ ⟨0, 0, 0⟩ ⟨0, 0, -1⟩ = 1 := by
    unfold rayThc; rw [hd2A]; exact sqrtEval (by norm_num) (by norm_num)
  have htcaA : rayTca ⟨⟨0, 0, -5⟩, 1, ivory⟩ ⟨0, 0, 0⟩ ⟨0, 0, -1⟩ = 5 := by
    unfold rayTca rayL; simp [dot, sub]
  have hT0A : rayT0 ⟨⟨0, 0, -5⟩, 1, ivory⟩ ⟨0, 0, 0⟩ ⟨0, 0, -1⟩ = 4 := by
    unfold rayT0; rw [htcaA, hthcA]; norm_num
  have hhitA : (rayIntersects ⟨⟨0, 0, -5⟩, 1, ivory⟩ ⟨0, 0, 0⟩ ⟨0, 0, -1⟩).1 = true := by
    rw [rayIntersects_pos _ _ _ (by rw [hd2A]; norm_num) (by rw [hT0A]; norm_num)]
  have hd2B : rayD2 ⟨⟨0, 0, 5⟩, 1, ivory⟩ ⟨0, 0, 0⟩ ⟨0, 0, -1⟩ = 0 := by
    unfold rayD2 rayTca rayL; simp [dot, sub]
  have hthcB : rayThc ⟨⟨0, 0, 5⟩, 1, ivory⟩ ⟨0, 0, 0⟩ ⟨0, 0, -1⟩ = 1 := by
    unfold rayThc; rw [hd2B]; exact sqrtEval (by norm_num) (by norm_num)
  have htcaB : rayTca ⟨⟨0, 0, 5⟩, 1, ivory⟩ ⟨0, 0, 0⟩ ⟨0, 0, -1⟩ = -5 := by
    unfold rayTca rayL; simp [dot, sub]
  have hT0B : rayT0 ⟨⟨0, 0, 5⟩, 1, ivory⟩ ⟨0, 0, 0⟩ ⟨0, 0, -1⟩ < 0 := by
    unfold rayT0; rw [htcaB, hthcB]; norm_num
  have hT1B : rayT1 ⟨⟨0, 0, 5⟩, 1, ivory⟩ ⟨0, 0, 0⟩ ⟨0, 0, -1⟩ < 0 := by
    unfold rayT1; rw [htcaB, hthcB]; norm_num
  exact ⟨(rayIntersects_hit_nonneg_and_behind_misses _ _ _).1 hhitA,
    (rayIntersects_hit_nonneg_and_behind_misses _ _ _).2 hT0B hT1B⟩

/-- C8: for unit-length `I` and `N`, `reflect(I,N)` is unit-length and
`dot(reflect(I,N), N) = -dot(I,N)`. -/
theorem reflect_unit_length_and_angle (I N : Vec3f)
    (hI : I.length = 1) (hN : N.length = 1) :
    (reflect I N).length = 1 ∧ dot (reflect I N) N = -(dot I N) := by
  unfold Vec3f.length at hI hN
  have hI2 : dot I I = 1 := Real.sqrt_eq_one.mp hI
  have hN2 : dot N N = 1 := Real.sqrt_eq_one.mp hN
  obtain ⟨ix, iy, iz⟩ := I
  obtain ⟨nx, ny, nz⟩ := N
  simp only [dot] at hI2 hN2
  have key : dot (reflect ⟨ix, iy, iz⟩ ⟨nx, ny, nz⟩) (reflect ⟨ix, iy, iz⟩ ⟨nx, ny, nz⟩) = 1 := by
    simp only [dot, reflect, sub, scale]
    linear_combination hI2 + (4 * (ix * nx + iy * ny + iz * nz) ^ 2) * hN2
  constructor
  · unfold Vec3f.length
    rw [key]
    exact Real.sqrt_one
  · simp only [dot, reflect, sub, scale]
    linear_combination (-2 * (ix * nx + iy * ny + iz * nz)) * hN2

/-- Witness for C8: applied to the unit vectors `(0,-1,0)` and `(0,1,0)`. -/
theorem reflect_unit_length_and_angle_witness :
    Vec3f.length ⟨0, -1, 0⟩ = 1 ∧ Vec3f.length ⟨0, 1, 0⟩ = 1 ∧
    (reflect ⟨0, -1, 0⟩ ⟨0, 1, 0⟩).length = 1 ∧
    dot (reflect ⟨0, -1, 0⟩ ⟨0, 1, 0⟩) ⟨0, 1, 0⟩ = -(dot ⟨0, -1, 0⟩ ⟨0, 1, 0⟩) := by
  have h1 : Vec3f.length ⟨0, -1, 0⟩ = 1 := by
    unfold Vec3f.length dot; exact sqrtEval (by norm_num) (by norm_num)
  have h2 : Vec3f.length ⟨0, 1, 0⟩ = 1 := by
    unfold Vec3f.length dot; exact sqrtEval (by norm_num) (by norm_num)
  exact ⟨h1, h2, reflect_unit_length_and_angle _ _ h1 h2⟩

/-- C5: whenever `refract` reaches the total-internal-reflection case `k < 0`
(with `k` computed after the index swap), it returns the fixed sentinel
direction `(1,0,0)` instead of signalling an error. -/
theorem refract_total_internal_reflection_sentinel (I N : Vec3f) (refractiveIndex : ℝ)
    (h : refractK I N refractiveIndex < 0) : refract I N refractiveIndex = ⟨1, 0, 0⟩ := by
  unfold refract
  rw [if_pos h]

/-- Witness for C5: a ray leaving a glass medium (index 1.5) at a grazing
angle has `k < 0` and gets the sentinel direction. -/
theorem refract_total_internal_reflection_sentinel_witness :
    refractK ⟨1, 0.5, 0⟩ ⟨0, 1, 0⟩ 1.5 < 0 ∧ refract ⟨1, 0.5, 0⟩ ⟨0, 1, 0⟩ 1.5 = ⟨1, 0, 0⟩ := by
  have hclamp : clamp11 (dot ⟨1, 0.5, 0⟩ ⟨0, 1, 0⟩) = 0.5 := by
    unfold clamp11 dot
    rw [if_neg (by norm_num), if_neg (by norm_num)]
    norm_num
  have hc0 : refractCosi0 ⟨1, 0.5, 0⟩ ⟨0, 1, 0⟩ = -0.5 := by
    unfold refractCosi0; rw [hclamp]
  have hk : refractK ⟨1, 0.5, 0⟩ ⟨0, 1, 0⟩ 1.5 < 0 := by
    unfold refractK refractEta refractCosi
    rw [hc0, if_pos (by norm_num), if_pos (by norm_num)]
    norm_num
  exact ⟨hk, refract_total_internal_reflection_sentinel _ _ _ hk⟩

/-- C7: with matching refractive indices (`refractiveIndex = 1`) and
`dot(I,N)` within `[-1,1]`, `refract(I, N, 1)` returns `I` unchanged; over the
exact reals the floating-point tolerance collapses to equality. -/
theorem refract_index_one_identity (I N : Vec3f)
    (h1 : -1 ≤ dot I N) (h2 : dot I N ≤ 1) : refract I N 1 = I := by
  have hclamp : clamp11 (dot I N) = dot I N := by
    unfold clamp11
    rw [if_neg (by linarith), if_neg (by linarith)]
  have heta : refractEta I N 1 = 1 := by
    unfold refractEta; split_ifs <;> norm_num
  have hcosi : 0 ≤ refractCosi I N := by
    unfold refractCosi
    split_ifs with h
    · linarith
    · linarith [not_lt.mp h]
  have hk : refractK I N 1 = refractCosi I N * refractCosi I N := by
    unfold refractK; rw [heta]; ring
  have hknn : 0 ≤ refractK I N 1 := by rw [hk]; exact mul_self_nonneg _
  have hsq : Real.sqrt (refractK I N 1) = refractCosi I N := by
    rw [hk, Real.sqrt_mul_self hcosi]
  unfold refract
  rw [if_neg (not_lt.mpr hknn), heta, hsq]
  obtain ⟨ix, iy, iz⟩ := I
  simp [add, scale]

/-- Witness for C7: a head-on ray with `dot(I,N) = -1` passes through a medium
of index 1 unchanged. -/
theorem refract_index_one_identity_witness :
    -1 ≤ dot ⟨0, -1, 0⟩ ⟨0, 1, 0⟩ ∧ dot ⟨0, -1, 0⟩ ⟨0, 1, 0⟩ ≤ 1 ∧
    refract ⟨0, -1, 0⟩ ⟨0, 1, 0⟩ 1 = ⟨0, -1, 0⟩ := by
  refine ⟨by unfold dot; norm_num, by unfold dot; norm_num, ?_⟩
  exact refract_index_one_identity _ _ (by unfold dot; norm_num) (by unfold dot; norm_num)

/-- castRay_bg: the terminal case of `castRay` — depth exhausted or no
intersection yields the background color. -/
lemma castRay_bg (origin direction : Vec3f) (spheres : List Sphere) (lights : List Light)
    (depth : ℤ)
    (h : depth < 1 ∨ (sceneIntersect origin direction spheres).intersects = false) :
    castRay origin direction spheres lights depth = bgColor := by
  rw [castRay.eq_def]
  simp only
  rw [dif_pos h]

/-- castRay_rec: the recursive case of `castRay` unfolded once. -/
lemma castRay_rec (origin direction : Vec3f) (spheres : List Sphere) (lights : List Light)
    (depth : ℤ)
    (h : ¬ (depth < 1 ∨ (sceneIntersect origin direction spheres).intersects = false)) :
    castRay origin direction spheres lights depth =
      shadePoint direction (sceneIntersect origin direction spheres) spheres lights
        (castRay
          (biasedOrigin (sceneIntersect origin direction spheres).hit
            (sceneIntersect origin direction spheres).N
            (reflectRay direction (sceneIntersect origin direction spheres)))
          (reflectRay direction (sceneIntersect origin direction spheres)) spheres lights
          (depth - 1))
        (castRay
          (biasedOrigin (sceneIntersect origin direction spheres).hit
            (sceneIntersect origin direction spheres).N
            (refractRay direction (sceneIntersect origin direction spheres)))
          (refractRay direction (sceneIntersect origin direction spheres)) spheres lights
          (depth - 1)) := by
  rw [castRay.eq_def]
  simp only
  rw [dif_neg h]

/-- C1: calling `castRay` with depth 0 returns the fixed background color
`(0.2, 0.7, 0.8)` for every origin, direction, sphere list and light list,
regardless of what the ray would hit. -/
theorem castRay_depth_zero_background (origin direction : Vec3f) (spheres : List Sphere)
    (lights : List Light) :
    castRay origin direction spheres lights 0 = ⟨0.2, 0.7, 0.8⟩ :=
  castRay_bg origin direction spheres lights 0 (Or.inl (by norm_num))

/-- C9: the recursion of `castRay` is bounded by the initial depth argument:
running the fuel-metered interpreter with any fuel exceeding `depth` never
exhausts the fuel and agrees with `castRay`; in particular every call
terminates, since each recursive call decreases `depth` and any call with
`depth < 1` returns immediately. -/
theorem castRay_terminates (fuel : ℕ) (origin direction : Vec3f) (spheres : List Sphere)
    (lights : List Light) (depth : ℤ) (h : depth.toNat < fuel) :
    castRayFuel fuel origin direction spheres lights depth =
      some (castRay origin direction spheres lights depth) := by
  induction fuel generalizing origin direction depth with
  | zero => omega
  | succ fuel ih =>
    rw [castRayFuel]
    by_cases hc : depth < 1 ∨ (sceneIntersect origin direction spheres).intersects = false
    · rw [if_pos hc, castRay_bg origin direction spheres lights depth hc]
    · rw [if_neg hc]
      have hd : (depth - 1).toNat < fuel := by
        simp only [not_or, not_lt] at hc
        omega
      rw [ih _ _ _ hd, ih _ _ _ hd]
      rw [castRay_rec origin direction spheres lights depth hc]

/-- Witness for C9: one unit of fuel suffices for a depth-0 ray. -/
theorem castRay_terminates_witness :
    (0 : ℤ).toNat < 1 ∧
    castRayFuel 1 ⟨0, 0, 0⟩ ⟨0, 0, -1⟩ [] [] 0 =
      some (castRay ⟨0, 0, 0⟩ ⟨0, 0, -1⟩ [] [] 0) :=
  ⟨by decide, castRay_terminates 1 ⟨0, 0, 0⟩ ⟨0, 0, -1⟩ [] [] 0 (by decide)⟩

/-- planeStep_pos: when the checkerboard test accepts, `planeStep` installs
the plane hit. -/
lemma planeStep_pos (origin direction : Vec3f) (st : IState)
    (h : planeAccepts origin direction st.closestDistance) :
    planeStep origin direction st =
      ⟨planeD origin direction, planePoint origin direction, ⟨0, 1, 0⟩,
        planeMaterial (planePoint origin direction)⟩ := by
  unfold planeStep
  rw [if_pos h]

/-- planeStep_neg: when the checkerboard test rejects, `planeStep` keeps the
sphere-loop state. -/
lemma planeStep_neg (origin direction : Vec3f) (st : IState)
    (h : ¬ planeAccepts origin direction st.closestDistance) :
    planeStep origin direction st = st := by
  unfold planeStep
  rw [if_neg h]

/-- sceneIntersect_nil_plane: with no spheres, a ray accepted by the
checkerboard test hits the plane. -/
lemma sceneIntersect_nil_plane (origin direction : Vec3f)
    (h : planeAccepts origin direction maxFloat32)
    (h2 : planeD origin direction < 1000) :
    sceneIntersect origin direction [] =
      ⟨true, planePoint origin direction, ⟨0, 1, 0⟩,
        planeMaterial (planePoint origin direction)⟩ := by
  unfold sceneIntersect spheresFold
  simp only [List.foldl]
  simp only [planeStep_pos origin direction initIState
    (show planeAccepts origin direction initIState.closestDistance from h)]
  simp only [HitInfo.mk.injEq, decide_eq_true_eq, eq_self_iff_true, and_true]
  exact h2

/-- Counterexample for C3: the checkerboard plane belongs to every scene, so a
ray that hits it, cast with the empty sphere list and the empty light list,
returns black rather than the background color. -/
theorem castRay_empty_scene_counterexample :
    castRay ⟨0, 0, 0⟩ ⟨0, -1, -5⟩ [] [] 1 ≠ ⟨0.2, 0.7, 0.8⟩ := by
  have hD : planeD ⟨0, 0, 0⟩ ⟨0, -1, -5⟩ = 4 := by unfold planeD; norm_num
  have hP : planePoint ⟨0, 0, 0⟩ ⟨0, -1, -5⟩ = ⟨0, -4, -20⟩ := by
    unfold planePoint
    rw [hD]
    simp [add, scale]
    norm_num
  have hpa : planeAccepts ⟨0, 0, 0⟩ ⟨0, -1, -5⟩ maxFloat32 := by
    unfold planeAccepts
    rw [hD, hP]
    norm_num [maxFloat32]
  have hres : sceneIntersect ⟨0, 0, 0⟩ ⟨0, -1, -5⟩ [] =
      ⟨true, ⟨0, -4, -20⟩, ⟨0, 1, 0⟩, planeMaterial ⟨0, -4, -20⟩⟩ := by
    rw [sceneIntersect_nil_plane _ _ hpa (by rw [hD]; norm_num), hP]
  have hc : ¬ ((1 : ℤ) < 1 ∨ (sceneIntersect ⟨0, 0, 0⟩ ⟨0, -1, -5⟩ []).intersects = false) := by
    rw [hres]
    simp
  rw [castRay_rec _ _ _ _ _ hc, hres]
  unfold shadePoint lightFold planeMaterial
  simp only [List.foldl]
  simp [accumulate, List.foldl, add, scale, whiteColor, Vec3f.mk.injEq]
  norm_num

/-- C3 amended: with an empty sphere list and an empty light list, `castRay`
returns exactly the background color for every depth — for every origin and
direction whose ray is rejected by the built-in checkerboard-plane test (rays
accepted by that test are shaded against the plane instead). -/
theorem castRay_empty_scene_background (origin direction : Vec3f) (depth : ℤ)
    (h : ¬ planeAccepts origin direction maxFloat32) :
    castRay origin direction [] [] depth = ⟨0.2, 0.7, 0.8⟩ := by
  apply castRay_bg
  right
  unfold sceneIntersect spheresFold
  simp only [List.foldl]
  simp only [planeStep_neg origin direction initIState
    (show ¬ planeAccepts origin direction initIState.closestDistance from h)]
  simp only [decide_eq_false_iff_not, not_lt]
  norm_num [initIState, maxFloat32]

/-- Witness for C3 amended: a ray parallel to the plane misses everything and
yields the background color at depth 5. -/
theorem castRay_empty_scene_background_witness :
    ¬ planeAccepts ⟨0, 0, 0⟩ ⟨0, 0, -1⟩ maxFloat32 ∧
    castRay ⟨0, 0, 0⟩ ⟨0, 0, -1⟩ [] [] 5 = ⟨0.2, 0.7, 0.8⟩ := by
  have h : ¬ planeAccepts ⟨0, 0, 0⟩ ⟨0, 0, -1⟩ maxFloat32 := by
    unfold planeAccepts
    rintro ⟨h1, -⟩
    norm_num at h1
  exact ⟨h, castRay_empty_scene_background _ _ _ h⟩

/-- Counterexample for C4: for the plane hit at `(0, -4, -21)` the sum
`floor(0.5*hitX + 1000) + floor(0.5*hitZ) = 1000 + (-11) = 989` is odd, so the
claim predicts the orange color — but Go's `int(...)` conversion truncates
toward zero (`int(-10.5) = -10`), giving the even indicator `990` and the
white color. -/
theorem plane_checker_parity_counterexample :
    (sceneIntersect ⟨0, 0, 0⟩ ⟨0, -1, -5.25⟩ []).intersects = true ∧
    (sceneIntersect ⟨0, 0, 0⟩ ⟨0, -1, -5.25⟩ []).hit = ⟨0, -4, -21⟩ ∧
    (⌊0.5 * (0 : ℝ) + 1000⌋ + ⌊0.5 * (-21 : ℝ)⌋) % 2 = 1 ∧
    (sceneIntersect ⟨0, 0, 0⟩ ⟨0, -1, -5.25⟩ []).material.diffuseColor ≠
      scale ⟨1, 0.7, 0.3⟩ 0.3 ∧
    (sceneIntersect ⟨0, 0, 0⟩ ⟨0, -1, -5.25⟩ []).material.diffuseColor =
      scale ⟨1, 1, 1⟩ 0.3 := by
  have hD : planeD ⟨0, 0, 0⟩ ⟨0, -1, -5.25⟩ = 4 := by unfold planeD; norm_num
  have hP : planePoint ⟨0, 0, 0⟩ ⟨0, -1, -5.25⟩ = ⟨0, -4, -21⟩ := by
    unfold planePoint
    rw [hD]
    simp [add, scale]
    norm_num
  have hpa : planeAccepts ⟨0, 0, 0⟩ ⟨0, -1, -5.25⟩ maxFloat32 := by
    unfold planeAccepts
    rw [hD, hP]
    norm_num [maxFloat32]
  have hres : sceneIntersect ⟨0, 0, 0⟩ ⟨0, -1, -5.25⟩ [] =
      ⟨true, ⟨0, -4, -21⟩, ⟨0, 1, 0⟩, planeMaterial ⟨0, -4, -21⟩⟩ := by
    have := sceneIntersect_nil_plane ⟨0, 0, 0⟩ ⟨0, -1, -5.25⟩ hpa (by rw [hD]; norm_num)
    rw [hP] at this
    exact this
  have ht1 : truncInt (0.5 * (0 : ℝ) + 1000) = 1000 := by
    unfold truncInt
    rw [if_pos (by norm_num), Int.floor_eq_iff]
    norm_num
  have ht2 : truncInt (0.5 * (-21 : ℝ)) = -10 := by
    unfold truncInt
    rw [if_neg (by norm_num), Int.ceil_eq_iff]
    norm_num
  have hci : checkIndicator ⟨0, -4, -21⟩ = 990 := by
    unfold checkIndicator
    show truncInt (0.5 * (0 : ℝ) + 1000) + truncInt (0.5 * (-21 : ℝ)) = 990
    rw [ht1, ht2]
    decide
  have hpb : planeBase ⟨0, -4, -21⟩ = ⟨1, 1, 1⟩ := by
    unfold planeBase
    rw [hci, if_neg (by decide)]
  have hf1 : ⌊0.5 * (0 : ℝ) + 1000⌋ = 1000 := by rw [Int.floor_eq_iff]; norm_num
  have hf2 : ⌊0.5 * (-21 : ℝ)⌋ = -11 := by rw [Int.floor_eq_iff]; norm_num
  refine ⟨by rw [hres], by rw [hres], by rw [hf1, hf2]; decide, ?_, ?_⟩
  · rw [hres]
    show (planeMaterial ⟨0, -4, -21⟩).diffuseColor ≠ scale ⟨1, 0.7, 0.3⟩ 0.3
    unfold planeMaterial
    rw [hpb]
    simp [scale, Vec3f.mk.injEq]
    norm_num
  · rw [hres]
    show (planeMaterial ⟨0, -4, -21⟩).diffuseColor = scale ⟨1, 1, 1⟩ 0.3
    unfold planeMaterial
    rw [hpb]

/-- C4 amended: when `sceneIntersect` accepts a checkerboard-plane hit, the
chosen diffuse color before the 0.3 scaling is white `(1,1,1)` when
`trunc(0.5*hitX + 1000) + trunc(0.5*hitZ)` is even and orange `(1,0.7,0.3)`
when it is odd, where `trunc` is Go's toward-zero integer conversion (floor
for nonnegative arguments, ceiling for negative ones — not floor throughout). -/
theorem plane_checker_parity (origin direction : Vec3f) (spheres : List Sphere)
    (h : planeAccepts origin direction (spheresFold origin direction spheres).closestDistance) :
    (sceneIntersect origin direction spheres).material.diffuseColor =
      scale (planeBase (planePoint origin direction)) 0.3 ∧
    (planeBase (planePoint origin direction) = ⟨1, 1, 1⟩ ↔
      checkIndicator (planePoint origin direction) % 2 = 0) ∧
    (planeBase (planePoint origin direction) = ⟨1, 0.7, 0.3⟩ ↔
      checkIndicator (planePoint origin direction) % 2 = 1) := by
  have hORW : (⟨1, 0.7, 0.3⟩ : Vec3f) ≠ ⟨1, 1, 1⟩ := by
    simp [Vec3f.mk.injEq]
    norm_num
  refine ⟨?_, ?_, ?_⟩
  · unfold sceneIntersect
    simp only [planeStep_pos origin direction (spheresFold origin direction spheres) h]
    rfl
  · unfold planeBase
    rcases Int.emod_two_eq_zero_or_one (checkIndicator (planePoint origin direction)) with h0 | h1
    · rw [if_neg (by omega)]
      simp [h0]
    · rw [if_pos h1]
      constructor
      · intro hw
        exact absurd hw hORW
      · intro h0
        omega
  · unfold planeBase
    rcases Int.emod_two_eq_zero_or_one (checkIndicator (planePoint origin direction)) with h0 | h1
    · rw [if_neg (by omega)]
      constructor
      · intro hw
        exact absurd hw.symm hORW
      · intro h1
        omega
    · rw [if_pos h1]
      simp [h1]

/-- Witness for C4 amended: the empty-sphere scene with the plane hit at
`(0, -4, -20)`. -/
theorem plane_checker_parity_witness :
    (sceneIntersect ⟨0, 0, 0⟩ ⟨0, -1, -5⟩ []).material.diffuseColor =
      scale (planeBase (planePoint ⟨0, 0, 0⟩ ⟨0, -1, -5⟩)) 0.3 ∧
    (planeBase (planePoint ⟨0, 0, 0⟩ ⟨0, -1, -5⟩) = ⟨1, 1, 1⟩ ↔
      checkIndicator (planePoint ⟨0, 0, 0⟩ ⟨0, -1, -5⟩) % 2 = 0) ∧
    (planeBase (planePoint ⟨0, 0, 0⟩ ⟨0, -1, -5⟩) = ⟨1, 0.7, 0.3⟩ ↔
      checkIndicator (planePoint ⟨0, 0, 0⟩ ⟨0, -1, -5⟩) % 2 = 1) := by
  apply plane_checker_parity
  show planeAccepts ⟨0, 0, 0⟩ ⟨0, -1, -5⟩ maxFloat32
  have hD : planeD ⟨0, 0, 0⟩ ⟨0, -1, -5⟩ = 4 := by unfold planeD; norm_num
  have hP : planePoint ⟨0, 0, 0⟩ ⟨0, -1, -5⟩ = ⟨0, -4, -20⟩ := by
    unfold planePoint
    rw [hD]
    simp [add, scale]
    norm_num
  unfold planeAccepts
  rw [hD, hP]
  norm_num [maxFloat32]

/-- sphereStep_hit: an accepted sphere replaces the loop state. -/
lemma sphereStep_hit (origin direction : Vec3f) (st : IState) (s : Sphere)
    (h1 : (rayIntersects s origin direction).1 = true)
    (h2 : (rayIntersects s origin direction).2 < st.closestDistance) :
    sphereStep origin direction st s =
      ⟨(rayIntersects s origin direction).2,
        add origin (scale direction (rayIntersects s origin direction).2),
        normalize (sub (add origin (scale direction (rayIntersects s origin direction).2)) s.center),
        s.material⟩ := by
  unfold sphereStep
  rw [if_pos ⟨h1, h2⟩]

/-- sphereStep_skip: a rejected sphere leaves the loop state unchanged. -/
lemma sphereStep_skip (origin direction : Vec3f) (st : IState) (s : Sphere)
    (h : ¬ ((rayIntersects s origin direction).1 = true ∧
        (rayIntersects s origin direction).2 < st.closestDistance)) :
    sphereStep origin direction st s = st := by
  unfold sphereStep
  rw [if_neg h]

/-- sphereStep_comm: two loop iterations commute when the two spheres do not
tie at the same accepted hit distance. -/
lemma sphereStep_comm (origin direction : Vec3f) (x y : Sphere) (z : IState)
    (hxy : x ≠ y →
      (rayIntersects x origin direction).1 = true →
      (rayIntersects y origin direction).1 = true →
      (rayIntersects x origin direction).2 ≠ (rayIntersects y origin direction).2) :
    sphereStep origin direction (sphereStep origin direction z x) y =
      sphereStep origin direction (sphereStep origin direction z y) x := by
  by_cases heq : x = y
  · subst heq
    rfl
  unfold sphereStep
  by_cases hbx : (rayIntersects x origin direction).1 = true <;>
    by_cases hby : (rayIntersects y origin direction).1 = true
  · have hne := hxy heq hbx hby
    simp only [hbx, hby, true_and]
    rcases lt_or_gt_of_ne hne with hlt | hgt <;>
      split_ifs <;> first | rfl | (exfalso; simp only at *; linarith)
  · simp only [hbx, hby, true_and, Bool.false_eq_true, false_and, if_false]
  · simp only [hbx, hby, true_and, Bool.false_eq_true, false_and, if_false]
  · simp only [hbx, hby, Bool.false_eq_true, false_and, if_false]

/-- spheresFold_perm: the sphere loop is invariant under permutations of the
sphere list when accepted hit distances of distinct spheres never tie. -/
lemma spheresFold_perm (origin direction : Vec3f) {l₁ l₂ : List Sphere}
    (p : l₁.Perm l₂)
    (hdist : ∀ px ∈ l₁, ∀ py ∈ l₁, px ≠ py →
      (rayIntersects px origin direction).1 = true →
      (rayIntersects py origin direction).1 = true →
      (rayIntersects px origin direction).2 ≠ (rayIntersects py origin direction).2) :
    spheresFold origin direction l₁ = spheresFold origin direction l₂ := by
  unfold spheresFold
  exact p.foldl_eq'
    (fun a ha b hb st => sphereStep_comm origin direction a b st (hdist a ha b hb))
    initIState

/-- noPlane_negZ: a ray along the negative z axis is parallel to the
checkerboard plane and is always rejected by the plane test. -/
lemma noPlane_negZ (b : ℝ) : ¬ planeAccepts ⟨0, 0, 0⟩ ⟨0, 0, -1⟩ b := by
  unfold planeAccepts
  rintro ⟨h1, -⟩
  norm_num at h1

/-- rayIntersects_ex_m5: the unit sphere at `(0,0,-5)` is hit at distance 4 by
the axis ray. -/
lemma rayIntersects_ex_m5 :
    rayIntersects ⟨⟨0, 0, -5⟩, 1, ivory⟩ ⟨0, 0, 0⟩ ⟨0, 0, -1⟩ = (true, 4) := by
  have hd2 : rayD2 ⟨⟨0, 0, -5⟩, 1, ivory⟩ ⟨0, 0, 0⟩ ⟨0, 0, -1⟩ = 0 := by
    unfold rayD2 rayTca rayL; simp [dot, sub]
  have htca : rayTca ⟨⟨0, 0, -5⟩, 1, ivory⟩ ⟨0, 0, 0⟩ ⟨0, 0, -1⟩ = 5 := by
    unfold rayTca rayL; simp [dot, sub]
  have hthc : rayThc ⟨⟨0, 0, -5⟩, 1, ivory⟩ ⟨0, 0, 0⟩ ⟨0, 0, -1⟩ = 1 := by
    unfold rayThc; rw [hd2]; exact sqrtEval (by norm_num) (by norm_num)
  have ht0 : rayT0 ⟨⟨0, 0, -5⟩, 1, ivory⟩ ⟨0, 0, 0⟩ ⟨0, 0, -1⟩ = 4 := by
    unfold rayT0; rw [htca, hthc]; norm_num
  rw [rayIntersects_pos _ _ _ (by rw [hd2]; norm_num) (by rw [ht0]; norm_num), ht0]

/-- rayIntersects_ex_m6: the radius-2 sphere at `(0,0,-6)` is also hit at
distance 4 by the axis ray — an exact tie with the previous sphere. -/
lemma rayIntersects_ex_m6 :
    rayIntersects ⟨⟨0, 0, -6⟩, 2, redRubber⟩ ⟨0, 0, 0⟩ ⟨0, 0, -1⟩ = (true, 4) := by
  have hd2 : rayD2 ⟨⟨0, 0, -6⟩, 2, redRubber⟩ ⟨0, 0, 0⟩ ⟨0, 0, -1⟩ = 0 := by
    unfold rayD2 rayTca rayL; simp [dot, sub]
  have htca : rayTca ⟨⟨0, 0, -6⟩, 2, redRubber⟩ ⟨0, 0, 0⟩ ⟨0, 0, -1⟩ = 6 := by
    unfold rayTca rayL; simp [dot, sub]
  have hthc : rayThc ⟨⟨0, 0, -6⟩, 2, redRubber⟩ ⟨0, 0, 0⟩ ⟨0, 0, -1⟩ = 2 := by
    unfold rayThc; rw [hd2]; exact sqrtEval (by norm_num) (by norm_num)
  have ht0 : rayT0 ⟨⟨0, 0, -6⟩, 2, redRubber⟩ ⟨0, 0, 0⟩ ⟨0, 0, -1⟩ = 4 := by
    unfold rayT0; rw [htca, hthc]; norm_num
  rw [rayIntersects_pos _ _ _ (by rw [hd2]; norm_num) (by rw [ht0]; norm_num), ht0]

/-- rayIntersects_ex_m8: the unit sphere at `(0,0,-8)` is hit at distance 7 by
the axis ray. -/
lemma rayIntersects_ex_m8 :
    rayIntersects ⟨⟨0, 0, -8⟩, 1, redRubber⟩ ⟨0, 0, 0⟩ ⟨0, 0, -1⟩ = (true, 7) := by
  have hd2 : rayD2 ⟨⟨0, 0, -8⟩, 1, redRubber⟩ ⟨0, 0, 0⟩ ⟨0, 0, -1⟩ = 0 := by
    unfold rayD2 rayTca rayL; simp [dot, sub]
  have htca : rayTca ⟨⟨0, 0, -8⟩, 1, redRubber⟩ ⟨0, 0, 0⟩ ⟨0, 0, -1⟩ = 8 := by
    unfold rayTca rayL; simp [dot, sub]
  have hthc : rayThc ⟨⟨0, 0, -8⟩, 1, redRubber⟩ ⟨0, 0, 0⟩ ⟨0, 0, -1⟩ = 1 := by
    unfold rayThc; rw [hd2]; exact sqrtEval (by norm_num) (by norm_num)
  have ht0 : rayT0 ⟨⟨0, 0, -8⟩, 1, redRubber⟩ ⟨0, 0, 0⟩ ⟨0, 0, -1⟩ = 7 := by
    unfold rayT0; rw [htca, hthc]; norm_num
  rw [rayIntersects_pos _ _ _ (by rw [hd2]; norm_num) (by rw [ht0]; norm_num), ht0]

/-- sceneIntersect_material_of_fold: the returned material is the one left by
the sphere loop whenever the plane test rejects the ray. -/
lemma sceneIntersect_material_of_fold (origin direction : Vec3f) (spheres : List Sphere)
    (h : ¬ planeAccepts origin direction (spheresFold origin direction spheres).closestDistance) :
    (sceneIntersect origin direction spheres).material =
      (spheresFold origin direction spheres).material := by
  unfold sceneIntersect
  simp only [planeStep_neg origin direction (spheresFold origin direction spheres) h]

/-- Counterexample for C6: two distinct spheres hit by the same ray at the
same distance 4; reordering them changes which material `sceneIntersect`
returns, so the result is not invariant under permutations of the sphere
list. -/
theorem sceneIntersect_order_counterexample :
    ([⟨⟨0, 0, -5⟩, 1, ivory⟩, ⟨⟨0, 0, -6⟩, 2, redRubber⟩] : List Sphere).Perm
      [⟨⟨0, 0, -6⟩, 2, redRubber⟩, ⟨⟨0, 0, -5⟩, 1, ivory⟩] ∧
    (sceneIntersect ⟨0, 0, 0⟩ ⟨0, 0, -1⟩
        [⟨⟨0, 0, -5⟩, 1, ivory⟩, ⟨⟨0, 0, -6⟩, 2, redRubber⟩]).material.diffuseColor ≠
      (sceneIntersect ⟨0, 0, 0⟩ ⟨0, 0, -1⟩
        [⟨⟨0, 0, -6⟩, 2, redRubber⟩, ⟨⟨0, 0, -5⟩, 1, ivory⟩]).material.diffuseColor := by
  have hA := rayIntersects_ex_m5
  have hB := rayIntersects_ex_m6
  have hmax : (4 : ℝ) < initIState.closestDistance := by
    norm_num [initIState, maxFloat32]
  have hfirstA : sphereStep ⟨0, 0, 0⟩ ⟨0, 0, -1⟩ initIState ⟨⟨0, 0, -5⟩, 1, ivory⟩ =
      ⟨(rayIntersects ⟨⟨0, 0, -5⟩, 1, ivory⟩ ⟨0, 0, 0⟩ ⟨0, 0, -1⟩).2, _, _, ivory⟩ :=
    sphereStep_hit _ _ _ _ (by rw [hA]) (by rw [hA]; exact hmax)
  have hfirstB : sphereStep ⟨0, 0, 0⟩ ⟨0, 0, -1⟩ initIState ⟨⟨0, 0, -6⟩, 2, redRubber⟩ =
      ⟨(rayIntersects ⟨⟨0, 0, -6⟩, 2, redRubber⟩ ⟨0, 0, 0⟩ ⟨0, 0, -1⟩).2, _, _, redRubber⟩ :=
    sphereStep_hit _ _ _ _ (by rw [hB]) (by rw [hB]; exact hmax)
  have hmatAB : (spheresFold ⟨0, 0, 0⟩ ⟨0, 0, -1⟩
      [⟨⟨0, 0, -5⟩, 1, ivory⟩, ⟨⟨0, 0, -6⟩, 2, redRubber⟩]).material = ivory := by
    unfold spheresFold
    simp only [List.foldl]
    rw [sphereStep_skip _ _ _ _ (by
      rintro ⟨-, hlt⟩
      rw [hB, hfirstA, hA] at hlt
      simp at hlt), hfirstA]
  have hmatBA : (spheresFold ⟨0, 0, 0⟩ ⟨0, 0, -1⟩
      [⟨⟨0, 0, -6⟩, 2, redRubber⟩, ⟨⟨0, 0, -5⟩, 1, ivory⟩]).material = redRubber := by
    unfold spheresFold
    simp only [List.foldl]
    rw [sphereStep_skip _ _ _ _ (by
      rintro ⟨-, hlt⟩
      rw [hA, hfirstB, hB] at hlt
      simp at hlt), hfirstB]
  refine ⟨List.Perm.swap _ _ _, ?_⟩
  rw [sceneIntersect_material_of_fold _ _ _ (noPlane_negZ _),
    sceneIntersect_material_of_fold _ _ _ (noPlane_negZ _), hmatAB, hmatBA]
  simp [ivory, redRubber, Vec3f.mk.injEq]
  norm_num

/-- C6 amended: `sceneIntersect` returns the same result for every ordering of
the same multiset of spheres, provided no two distinct spheres of the list are
hit at exactly the same distance (with an exact tie the first sphere in the
sequence wins, so order matters). -/
theorem sceneIntersect_perm_invariant (origin direction : Vec3f) (l₁ l₂ : List Sphere)
    (hperm : l₁.Perm l₂)
    (hdist : ∀ px ∈ l₁, ∀ py ∈ l₁, px ≠ py →
      (rayIntersects px origin direction).1 = true →
      (rayIntersects py origin direction).1 = true →
      (rayIntersects px origin direction).2 ≠ (rayIntersects py origin direction).2) :
    sceneIntersect origin direction l₁ = sceneIntersect origin direction l₂ := by
  unfold sceneIntersect
  rw [spheresFold_perm origin direction hperm hdist]

/-- Witness for C6 amended: two spheres hit at the distinct distances 4 and 7
can be swapped without changing the result of `sceneIntersect`. -/
theorem sceneIntersect_perm_invariant_witness :
    sceneIntersect ⟨0, 0, 0⟩ ⟨0, 0, -1⟩
        [⟨⟨0, 0, -5⟩, 1, ivory⟩, ⟨⟨0, 0, -8⟩, 1, redRubber⟩] =
      sceneIntersect ⟨0, 0, 0⟩ ⟨0, 0, -1⟩
        [⟨⟨0, 0, -8⟩, 1, redRubber⟩, ⟨⟨0, 0, -5⟩, 1, ivory⟩] := by
  apply sceneIntersect_perm_invariant
  · exact List.Perm.swap _ _ _
  · intro px hpx py hpy hne hx hy
    simp only [List.mem_cons, List.not_mem_nil, or_false] at hpx hpy
    rcases hpx with rfl | rfl <;> rcases hpy with rfl | rfl
    · exact absurd rfl hne
    · rw [rayIntersects_ex_m5, rayIntersects_ex_m8]
      norm_num
    · rw [rayIntersects_ex_m8, rayIntersects_ex_m5]
      norm_num
    · exact absurd rfl hne

/-- C2: in the light loop of `castRay`, a light whose shadow probe (cast via
`sceneIntersect` from the bias-corrected shadow origin toward the light) hits
something closer than the light contributes zero to both the accumulated
diffuse and specular intensities, and removing it from the light list leaves
the accumulated totals of the other lights unchanged. -/
theorem occluded_light_contributes_nothing (spheres : List Sphere)
    (point normal direction : Vec3f) (specularExponent : ℝ) (light : Light)
    (l₁ l₂ : List Light)
    (h : occluded spheres point normal light = true) :
    lightTerm spheres point normal direction specularExponent light = (0, 0) ∧
    lightFold spheres point normal direction specularExponent (l₁ ++ light :: l₂) =
      lightFold spheres point normal direction specularExponent (l₁ ++ l₂) := by
  have hterm : lightTerm spheres point normal direction specularExponent light = (0, 0) := by
    unfold lightTerm
    rw [if_pos h]
  refine ⟨hterm, ?_⟩
  unfold lightFold
  rw [List.foldl_append, List.foldl_append]
  simp only [List.foldl]
  rw [hterm]
  simp

/-- rayIntersects_ex_shadow: the unit occluder sphere at `(0,5,0)` is hit at
distance 3.999 by the vertical shadow probe from `(0, 0.001, 0)`. -/
lemma rayIntersects_ex_shadow :
    rayIntersects ⟨⟨0, 5, 0⟩, 1, ivory⟩ ⟨0, 0.001, 0⟩ ⟨0, 1, 0⟩ = (true, 3.999) := by
  have hd2 : rayD2 ⟨⟨0, 5, 0⟩, 1, ivory⟩ ⟨0, 0.001, 0⟩ ⟨0, 1, 0⟩ = 0 := by
    unfold rayD2 rayTca rayL
    simp [dot, sub]
  have htca : rayTca ⟨⟨0, 5, 0⟩, 1, ivory⟩ ⟨0, 0.001, 0⟩ ⟨0, 1, 0⟩ = 4.999 := by
    unfold rayTca rayL
    simp [dot, sub]
    norm_num
  have hthc : rayThc ⟨⟨0, 5, 0⟩, 1, ivory⟩ ⟨0, 0.001, 0⟩ ⟨0, 1, 0⟩ = 1 := by
    unfold rayThc
    rw [hd2]
    exact sqrtEval (by norm_num) (by norm_num)
  have ht0 : rayT0 ⟨⟨0, 5, 0⟩, 1, ivory⟩ ⟨0, 0.001, 0⟩ ⟨0, 1, 0⟩ = 3.999 := by
    unfold rayT0
    rw [htca, hthc]
    norm_num
  rw [rayIntersects_pos _ _ _ (by rw [hd2]; norm_num) (by rw [ht0]; norm_num), ht0]

/-- noPlane_shadow: the upward shadow probe from `(0, 0.001, 0)` meets the
`y = -4` plane only behind its origin, so the plane test rejects it. -/
lemma noPlane_shadow (b : ℝ) : ¬ planeAccepts ⟨0, 0.001, 0⟩ ⟨0, 1, 0⟩ b := by
  unfold planeAccepts
  rintro ⟨-, h2, -⟩
  unfold planeD at h2
  norm_num at h2

/-- Witness for C2: a unit sphere at `(0,5,0)` occludes the light at
`(0,10,0)` as seen from the surface point at the origin with upward normal;
that light's contribution is `(0,0)` and dropping it from a one-light list
leaves the empty-list totals. -/
theorem occluded_light_contributes_nothing_witness :
    occluded [⟨⟨0, 5, 0⟩, 1, ivory⟩] ⟨0, 0, 0⟩ ⟨0, 1, 0⟩ ⟨⟨0, 10, 0⟩, 1.5⟩ = true ∧
    lightTerm [⟨⟨0, 5, 0⟩, 1, ivory⟩] ⟨0, 0, 0⟩ ⟨0, 1, 0⟩ ⟨0, 0, -1⟩ 10 ⟨⟨0, 10, 0⟩, 1.5⟩ =
      (0, 0) ∧
    lightFold [⟨⟨0, 5, 0⟩, 1, ivory⟩] ⟨0, 0, 0⟩ ⟨0, 1, 0⟩ ⟨0, 0, -1⟩ 10
        ([] ++ ⟨⟨0, 10, 0⟩, 1.5⟩ :: []) =
      lightFold [⟨⟨0, 5, 0⟩, 1, ivory⟩] ⟨0, 0, 0⟩ ⟨0, 1, 0⟩ ⟨0, 0, -1⟩ 10 ([] ++ []) := by
  have hsub : (sub ⟨0, 10, 0⟩ ⟨0, 0, 0⟩ : Vec3f) = ⟨0, 10, 0⟩ := by
    simp [sub]
  have hlen : (⟨0, 10, 0⟩ : Vec3f).length = 10 := by
    unfold Vec3f.length dot
    exact sqrtEval (by norm_num) (by norm_num)
  have hdir : lightDir ⟨0, 0, 0⟩ ⟨⟨0, 10, 0⟩, 1.5⟩ = ⟨0, 1, 0⟩ := by
    show normalize (sub ⟨0, 10, 0⟩ ⟨0, 0, 0⟩) = ⟨0, 1, 0⟩
    rw [hsub]
    unfold normalize
    rw [hlen]
    simp [Vec3f.mk.injEq]
  have hldist : lightDist ⟨0, 0, 0⟩ ⟨⟨0, 10, 0⟩, 1.5⟩ = 10 := by
    show (sub ⟨0, 10, 0⟩ ⟨0, 0, 0⟩ : Vec3f).length = 10
    rw [hsub, hlen]
  have hso : shadowOriginOf ⟨0, 0, 0⟩ ⟨0, 1, 0⟩ ⟨⟨0, 10, 0⟩, 1.5⟩ = ⟨0, 0.001, 0⟩ := by
    unfold shadowOriginOf
    rw [hdir]
    unfold biasedOrigin
    rw [if_neg (by norm_num [dot])]
    simp [add, scale]
  have hrO := rayIntersects_ex_shadow
  have hstep : sphereStep ⟨0, 0.001, 0⟩ ⟨0, 1, 0⟩ initIState ⟨⟨0, 5, 0⟩, 1, ivory⟩ =
      ⟨(rayIntersects ⟨⟨0, 5, 0⟩, 1, ivory⟩ ⟨0, 0.001, 0⟩ ⟨0, 1, 0⟩).2,
        add ⟨0, 0.001, 0⟩ (scale ⟨0, 1, 0⟩
          (rayIntersects ⟨⟨0, 5, 0⟩, 1, ivory⟩ ⟨0, 0.001, 0⟩ ⟨0, 1, 0⟩).2),
        normalize (sub (add ⟨0, 0.001, 0⟩ (scale ⟨0, 1, 0⟩
          (rayIntersects ⟨⟨0, 5, 0⟩, 1, ivory⟩ ⟨0, 0.001, 0⟩ ⟨0, 1, 0⟩).2)) ⟨0, 5, 0⟩),
        ivory⟩ :=
    sphereStep_hit _ _ _ _ (by rw [hrO]) (by rw [hrO]; norm_num [initIState, maxFloat32])
  have hfoldC : (spheresFold ⟨0, 0.001, 0⟩ ⟨0, 1, 0⟩
      [⟨⟨0, 5, 0⟩, 1, ivory⟩]).closestDistance = 3.999 := by
    unfold spheresFold
    simp only [List.foldl]
    rw [hstep]
    show (rayIntersects ⟨⟨0, 5, 0⟩, 1, ivory⟩ ⟨0, 0.001, 0⟩ ⟨0, 1, 0⟩).2 = 3.999
    rw [hrO]
  have hfoldH : (spheresFold ⟨0, 0.001, 0⟩ ⟨0, 1, 0⟩
      [⟨⟨0, 5, 0⟩, 1, ivory⟩]).hit = ⟨0, 4, 0⟩ := by
    unfold spheresFold
    simp only [List.foldl]
    rw [hstep]
    show add ⟨0, 0.001, 0⟩ (scale ⟨0, 1, 0⟩
        (rayIntersects ⟨⟨0, 5, 0⟩, 1, ivory⟩ ⟨0, 0.001, 0⟩ ⟨0, 1, 0⟩).2) = ⟨0, 4, 0⟩
    rw [hrO]
    show add ⟨0, 0.001, 0⟩ (scale ⟨0, 1, 0⟩ 3.999) = ⟨0, 4, 0⟩
    simp [add, scale, Vec3f.mk.injEq]
    norm_num
  have hsceneI : (sceneIntersect ⟨0, 0.001, 0⟩ ⟨0, 1, 0⟩
      [⟨⟨0, 5, 0⟩, 1, ivory⟩]).intersects = true := by
    show decide ((planeStep ⟨0, 0.001, 0⟩ ⟨0, 1, 0⟩ (spheresFold ⟨0, 0.001, 0⟩ ⟨0, 1, 0⟩
      [⟨⟨0, 5, 0⟩, 1, ivory⟩])).closestDistance < 1000) = true
    rw [planeStep_neg _ _ _ (noPlane_shadow _), hfoldC]
    simp only [decide_eq_true_eq]
    norm_num
  have hsceneH : (sceneIntersect ⟨0, 0.001, 0⟩ ⟨0, 1, 0⟩
      [⟨⟨0, 5, 0⟩, 1, ivory⟩]).hit = ⟨0, 4, 0⟩ := by
    show (planeStep ⟨0, 0.001, 0⟩ ⟨0, 1, 0⟩ (spheresFold ⟨0, 0.001, 0⟩ ⟨0, 1, 0⟩
      [⟨⟨0, 5, 0⟩, 1, ivory⟩])).hit = ⟨0, 4, 0⟩
    rw [planeStep_neg _ _ _ (noPlane_shadow _), hfoldH]
  have hocc : occluded [⟨⟨0, 5, 0⟩, 1, ivory⟩] ⟨0, 0, 0⟩ ⟨0, 1, 0⟩ ⟨⟨0, 10, 0⟩, 1.5⟩ = true := by
    unfold occluded
    rw [hdir, hso, hsceneI, hsceneH, hldist]
    have hslen : (sub ⟨0, 4, 0⟩ ⟨0, 0.001, 0⟩ : Vec3f).length = 3.999 := by
      have hs : (sub ⟨0, 4, 0⟩ ⟨0, 0.001, 0⟩ : Vec3f) = ⟨0, 3.999, 0⟩ := by
        simp [sub, Vec3f.mk.injEq]
        norm_num
      rw [hs]
      unfold Vec3f.length dot
      exact sqrtEval (by norm_num) (by norm_num)
    rw [hslen]
    simp only [Bool.true_and, decide_eq_true_eq]
    norm_num
  obtain ⟨h1, h2⟩ := occluded_light_contributes_nothing [⟨⟨0, 5, 0⟩, 1, ivory⟩]
    ⟨0, 0, 0⟩ ⟨0, 1, 0⟩ ⟨0, 0, -1⟩ 10 ⟨⟨0, 10, 0⟩, 1.5⟩ [] [] hocc
  exact ⟨hocc, h1, h2⟩

end Gotrt

end
